import Mathlib

/-!
Verification of the two-player combat game session server
(`src/server/server.js`).

The server keeps two process-wide registries (`rooms`, `players`), both
JavaScript `Map`s.  We embed a `Map` as an insertion-ordered association
list `List (String × α)`: `set` overwrites in place when the key exists
and appends otherwise, `delete` removes the entry, and iteration order is
list order — exactly the observable semantics of a JS `Map`.

Every socket handler becomes a pure function
`ServerState → inputs → ServerState × List Emit`, where an `Emit` records
the destination (`socket.emit`, `io.to(room)`, or `socket.to(room)` which
excludes the sender) and the payload.  The countdown timer of `startGame`
is modelled by structural recursion producing the tick-by-tick emissions
together with a count of `clearInterval` calls.
-/

namespace Game

/-- JS `Map.get`. -/
def lookupA {α : Type} : List (String × α) → String → Option α
  | [], _ => none
  | (k, v) :: t, key => if k = key then some v else lookupA t key

/-- JS `Map.has`. -/
def hasA {α : Type} (m : List (String × α)) (key : String) : Bool :=
  (lookupA m key).isSome

/-- JS `Map.set`: overwrite in place, or append a fresh entry. -/
def setA {α : Type} : List (String × α) → String → α → List (String × α)
  | [], key, v => [(key, v)]
  | (k, w) :: t, key, v =>
    if k = key then (k, v) :: t else (k, w) :: setA t key v

/-- JS `Map.delete`. -/
def delA {α : Type} : List (String × α) → String → List (String × α)
  | [], _ => []
  | (k, w) :: t, key => if k = key then t else (k, w) :: delA t key

/-- JS `Map.size`. -/
def sizeA {α : Type} (m : List (String × α)) : Nat := m.length

/-- Shield sub-state; `angle` is only ever written by clients, the server
reads just `active`, so an absent angle is `none`. -/
structure Shield where
  active : Bool
  angle : Option Int
  deriving DecidableEq, Repr

/-- Sword sub-state as written by the `swordSwing` / `swordRelease`
handlers. -/
structure Sword where
  active : Bool
  isSwinging : Bool
  swingAngle : Option Int
  deriving DecidableEq, Repr

/-- Sword hitbox payload relayed by the server. -/
structure Hitbox where
  visible : Bool
  x : Int
  y : Int
  angle : Int
  deriving DecidableEq, Repr

/-- A player record as stored in `room.players`.  Fields that the JS code
creates lazily (velocity, shield, sword, hitbox) are `Option`s, `none`
standing for the JS `undefined`. -/
structure Player where
  id : String
  name : String
  socketId : String
  x : Int
  y : Int
  velocityX : Option Int
  velocityY : Option Int
  health : Int
  isDead : Bool
  shield : Option Shield
  sword : Option Sword
  swordHitbox : Option Hitbox
  deriving DecidableEq, Repr

/-- The player object built at creation time in `createRoom`, `joinRoom`,
`joinRandomRoom` and `joinGame`: position (0,0), health 100, alive. -/
def mkPlayer (id name socketId : String) : Player :=
  { id := id, name := name, socketId := socketId, x := 0, y := 0,
    velocityX := none, velocityY := none, health := 100, isDead := false,
    shield := none, sword := none, swordHitbox := none }

/-- A room: code, player map, `gameStarted`, `countdown`. -/
structure Room where
  code : String
  players : List (String × Player)
  gameStarted : Bool
  countdown : Int
  deriving DecidableEq, Repr

/-- Connection binding stored in the process-wide `players` map, keyed by
socket id. -/
structure Binding where
  playerId : String
  roomCode : String
  deriving DecidableEq, Repr

/-- The process-wide mutable state: `rooms` and `players` registries. -/
structure ServerState where
  rooms : List (String × Room)
  players : List (String × Binding)
  deriving DecidableEq, Repr

/-- Public per-player snapshot built by `getPlayersState`. -/
structure PlayerView where
  name : String
  x : Int
  y : Int
  velocityX : Option Int
  velocityY : Option Int
  health : Int
  isDead : Bool
  shield : Shield
  sword : Sword
  swordHitbox : Hitbox
  deriving DecidableEq, Repr

def defaultShield : Shield := { active := true, angle := some 0 }

def defaultSword : Sword :=
  { active := false, isSwinging := false, swingAngle := some 0 }

def defaultHitbox : Hitbox := { visible := false, x := 0, y := 0, angle := 0 }

/-- One entry of `getPlayersState`, with the JS `||` default filling. -/
def playerView (p : Player) : PlayerView :=
  { name := p.name, x := p.x, y := p.y,
    velocityX := p.velocityX, velocityY := p.velocityY,
    health := p.health, isDead := p.isDead,
    shield := p.shield.getD defaultShield,
    sword := p.sword.getD defaultSword,
    swordHitbox := p.swordHitbox.getD defaultHitbox }

/-- `getPlayersState(room)`. -/
def getPlayersState (room : Room) : List (String × PlayerView) :=
  room.players.map (fun kv => (kv.1, playerView kv.2))

/-- Destination of an outbound event: `socket.emit`, `io.to(code)`, or
`socket.to(code)` (everyone in the room except the sending socket). -/
inductive EmitTarget where
  | toSocket (socketId : String)
  | toRoom (code : String)
  | othersInRoom (code : String) (senderSocket : String)
  deriving DecidableEq, Repr

/-- Outbound event payloads, one constructor per wire event. -/
inductive Payload where
  | roomCreated (roomCode playerId : String)
  | roomJoined (roomCode playerId : String)
  | roomNotFound
  | roomFull
  | errorMsg (message : String)
  | gameState (players : List (String × PlayerView))
      (gameStarted : Bool) (countdown : Int)
  | countdownTick (value : Int)
  | playerUpdateRelay (playerId : String) (mouseX mouseY : Int)
  | swordSwingEvt (playerId : String) (hitbox : Option Hitbox)
  | swordReleaseEvt (playerId : String)
  | playerHitEvt (playerId attackerId : String) (damage : Int)
  | gameOverEvt (winnerId loserId : String)
  | playerRespawnEvt (playerId : String)
  | playerDisconnectedEvt (playerId playerName : String)
  deriving DecidableEq, Repr

abbrev Emit := EmitTarget × Payload

/-- The `gameState` payload built by `broadcastGameState` and the
`playerState` handler. -/
def gameStatePayload (room : Room) : Payload :=
  Payload.gameState (getPlayersState room) room.gameStarted room.countdown

/-- `createRoom` handler.  The randomly generated room code and player id
are passed in as parameters. -/
def handleCreateRoom (s : ServerState)
    (socketId playerName freshRoomCode freshPlayerId : String) :
    ServerState × List Emit :=
  let room : Room :=
    { code := freshRoomCode,
      players := setA [] freshPlayerId
        (mkPlayer freshPlayerId playerName socketId),
      gameStarted := false, countdown := 3 }
  ({ rooms := setA s.rooms freshRoomCode room,
     players := setA s.players socketId
       { playerId := freshPlayerId, roomCode := freshRoomCode } },
   [(EmitTarget.toSocket socketId,
     Payload.roomCreated freshRoomCode freshPlayerId)])

/-- The inner `joinRoom(socket, data, roomCode)` function, also used by
the `joinRoom` and `joinRandomRoom` handlers. -/
def joinRoom (s : ServerState)
    (socketId playerName roomCode freshPlayerId : String) :
    ServerState × List Emit :=
  match lookupA s.rooms roomCode with
  | none => (s, [(EmitTarget.toSocket socketId, Payload.roomNotFound)])
  | some room =>
    if 2 ≤ sizeA room.players then
      (s, [(EmitTarget.toSocket socketId, Payload.roomFull)])
    else
      let room2 : Room :=
        { room with
          players := setA room.players freshPlayerId
            (mkPlayer freshPlayerId playerName socketId) }
      ({ rooms := setA s.rooms roomCode room2,
         players := setA s.players socketId
           { playerId := freshPlayerId, roomCode := roomCode } },
       [(EmitTarget.toSocket socketId,
         Payload.roomJoined roomCode freshPlayerId)])

/-- The linear matchmaking scan of `joinRandomRoom`: first room in
registry order with exactly one player and not started. -/
def findOpenRoom : List (String × Room) → Option String
  | [] => none
  | (code, room) :: t =>
    if sizeA room.players = 1 ∧ room.gameStarted = false then some code
    else findOpenRoom t

/-- `joinRandomRoom` handler: join the first open room, else create a
fresh one (emitting `roomJoined`). -/
def handleJoinRandomRoom (s : ServerState)
    (socketId playerName freshRoomCode freshPlayerId : String) :
    ServerState × List Emit :=
  match findOpenRoom s.rooms with
  | some code => joinRoom s socketId playerName code freshPlayerId
  | none =>
    let room : Room :=
      { code := freshRoomCode,
        players := setA [] freshPlayerId
          (mkPlayer freshPlayerId playerName socketId),
        gameStarted := false, countdown := 3 }
    ({ rooms := setA s.rooms freshRoomCode room,
       players := setA s.players socketId
         { playerId := freshPlayerId, roomCode := freshRoomCode } },
     [(EmitTarget.toSocket socketId,
       Payload.roomJoined freshRoomCode freshPlayerId)])

/-- The position assignment loop at the end of the countdown:
`player.x = i === 0 ? 250 : 750; player.y = 300` with `i` counting up. -/
def spawnAux (i : Nat) : List (String × Player) → List (String × Player)
  | [] => []
  | (k, p) :: t =>
    (k, { p with x := if i = 0 then 250 else 750, y := 300 }) ::
      spawnAux (i + 1) t

/-- The `setInterval` body of `startGame`, unrolled over the remaining
countdown value: emits the current value each tick; on the `0` tick it
clears the interval (third component counts `clearInterval` calls),
assigns spawn positions and broadcasts the game state. -/
def runCountdown (room : Room) : Nat → Room × (List Emit × Nat)
  | 0 =>
    let room2 : Room := { room with players := spawnAux 0 room.players }
    (room2,
     ([(EmitTarget.toRoom room.code, Payload.countdownTick 0),
       (EmitTarget.toRoom room.code, gameStatePayload room2)], 1))
  | Nat.succ n =>
    let r := runCountdown room n
    (r.1,
     ((EmitTarget.toRoom room.code,
       Payload.countdownTick (Int.ofNat (Nat.succ n))) :: r.2.1, r.2.2))

/-- `startGame(room)`: set `gameStarted`, then run the countdown from 3. -/
def startGame (room : Room) : Room × (List Emit × Nat) :=
  runCountdown { room with gameStarted := true } 3

/-- The membership step of the `joinGame` handler: add the player only
when the id is not already present (no capacity check). -/
def joinGamePlayers (room : Room) (playerId playerName socketId : String) :
    List (String × Player) :=
  if hasA room.players playerId then room.players
  else setA room.players playerId (mkPlayer playerId playerName socketId)

/-- `joinGame` handler. -/
def handleJoinGame (s : ServerState)
    (socketId roomCode playerId playerName : String) :
    ServerState × List Emit :=
  match lookupA s.rooms roomCode with
  | none =>
    (s, [(EmitTarget.toSocket socketId, Payload.errorMsg "Room not found")])
  | some room =>
    let room2 : Room :=
      { room with players := joinGamePlayers room playerId playerName socketId }
    let s2 : ServerState :=
      { rooms := setA s.rooms roomCode room2,
        players := setA s.players socketId
          { playerId := playerId, roomCode := roomCode } }
    let bcast : Emit := (EmitTarget.toRoom roomCode, gameStatePayload room2)
    if sizeA room2.players = 2 ∧ room2.gameStarted = false then
      let g := startGame room2
      ({ s2 with rooms := setA s2.rooms roomCode g.1 }, bcast :: g.2.1)
    else
      (s2, [bcast])

/-- Inbound `playerState` message payload. -/
structure PlayerStateMsg where
  roomCode : String
  playerId : String
  x : Int
  y : Int
  velocityX : Option Int
  velocityY : Option Int
  health : Int
  isDead : Bool
  shield : Option Shield
  deriving DecidableEq, Repr

/-- `playerState` handler: trusted overwrite of the player's state from
the client report, then broadcast to the other room members. -/
def handlePlayerState (s : ServerState) (socketId : String)
    (msg : PlayerStateMsg) : ServerState × List Emit :=
  match lookupA s.rooms msg.roomCode with
  | none => (s, [])
  | some room =>
    match lookupA room.players msg.playerId with
    | none => (s, [])
    | some p =>
      let p2 : Player :=
        { p with x := msg.x, y := msg.y,
                 velocityX := msg.velocityX, velocityY := msg.velocityY,
                 health := msg.health, isDead := msg.isDead,
                 shield := msg.shield }
      let room2 : Room :=
        { room with players := setA room.players msg.playerId p2 }
      ({ s with rooms := setA s.rooms msg.roomCode room2 },
       [(EmitTarget.othersInRoom msg.roomCode socketId,
         gameStatePayload room2)])

/-- `playerUpdate` handler: pure relay of the mouse position. -/
def handlePlayerUpdate (s : ServerState)
    (socketId roomCode playerId : String) (mouseX mouseY : Int) :
    ServerState × List Emit :=
  (s, [(EmitTarget.othersInRoom roomCode socketId,
        Payload.playerUpdateRelay playerId mouseX mouseY)])

/-- `swordSwing` handler: sword becomes active/swinging, shield inactive,
hitbox stored, event relayed to the others. -/
def handleSwordSwing (s : ServerState) (socketId roomCode playerId : String)
    (hitbox : Option Hitbox) : ServerState × List Emit :=
  match lookupA s.rooms roomCode with
  | none => (s, [])
  | some room =>
    match lookupA room.players playerId with
    | none => (s, [])
    | some p =>
      let p2 : Player :=
        { p with
          sword := some { active := true, isSwinging := true, swingAngle := some 0 },
          swordHitbox := hitbox,
          shield := some { active := false, angle := none } }
      let room2 : Room :=
        { room with players := setA room.players playerId p2 }
      ({ s with rooms := setA s.rooms roomCode room2 },
       [(EmitTarget.othersInRoom roomCode socketId,
         Payload.swordSwingEvt playerId hitbox)])

/-- `swordRelease` handler: sword inactive, shield active again. -/
def handleSwordRelease (s : ServerState)
    (socketId roomCode playerId : String) : ServerState × List Emit :=
  match lookupA s.rooms roomCode with
  | none => (s, [])
  | some room =>
    match lookupA room.players playerId with
    | none => (s, [])
    | some p =>
      let p2 : Player :=
        { p with
          sword := some { active := false, isSwinging := false, swingAngle := none },
          shield := some { active := true, angle := none } }
      let room2 : Room :=
        { room with players := setA room.players playerId p2 }
      ({ s with rooms := setA s.rooms roomCode room2 },
       [(EmitTarget.othersInRoom roomCode socketId,
         Payload.swordReleaseEvt playerId)])

/-- Values of the players that are still alive, in map iteration order —
the loop computing `alivePlayers` / `lastAlivePlayer`. -/
def aliveValues (ps : List (String × Player)) : List Player :=
  (ps.filter (fun kv => !kv.2.isDead)).map Prod.snd

/-- Number of living players. -/
def countAlive (ps : List (String × Player)) : Nat :=
  (aliveValues ps).length

/-- Survivor evaluation shared by `playerHit` and `playerDied`: when
exactly one player is alive, emit `gameOver` (winner = the living player,
loser = the reported dead player) and report that `gameStarted` must be
reset. -/
def survivorEval (roomCode : String) (ps : List (String × Player))
    (loserId : String) : List Emit × Bool :=
  match aliveValues ps with
  | [w] =>
    ([(EmitTarget.toRoom roomCode, Payload.gameOverEvt w.id loserId)], true)
  | _ => ([], false)

/-- `playerHit` handler: guard on both players present and target alive;
clamp damage at 0; on death run survivor evaluation; always re-broadcast
the hit with damage 15 (after a possible `gameOver`). -/
def handlePlayerHit (s : ServerState)
    (roomCode targetId attackerId : String) : ServerState × List Emit :=
  match lookupA s.rooms roomCode with
  | none => (s, [])
  | some room =>
    match lookupA room.players targetId, lookupA room.players attackerId with
    | some target, some _attacker =>
      if target.isDead then (s, [])
      else
        let target2 : Player :=
          { target with health := max 0 (target.health - 15) }
        let step : Room × List Emit :=
          if target2.health ≤ 0 ∧ target2.isDead = false then
            let target3 : Player := { target2 with isDead := true }
            let ps2 := setA room.players targetId target3
            let ev := survivorEval roomCode ps2 targetId
            ({ room with
                players := ps2,
                gameStarted := if ev.2 then false else room.gameStarted },
             ev.1)
          else
            ({ room with players := setA room.players targetId target2 }, [])
        ({ s with rooms := setA s.rooms roomCode step.1 },
         step.2 ++
           [(EmitTarget.toRoom roomCode,
             Payload.playerHitEvt targetId attackerId 15)])
    | _, _ => (s, [])

/-- `playerDied` handler: set the death flag unconditionally (no
already-dead guard) and run survivor evaluation. -/
def handlePlayerDied (s : ServerState) (roomCode playerId : String) :
    ServerState × List Emit :=
  match lookupA s.rooms roomCode with
  | none => (s, [])
  | some room =>
    match lookupA room.players playerId with
    | none => (s, [])
    | some p =>
      let p2 : Player := { p with isDead := true }
      let ps2 := setA room.players playerId p2
      let ev := survivorEval roomCode ps2 playerId
      let room2 : Room :=
        { room with
            players := ps2,
            gameStarted := if ev.2 then false else room.gameStarted }
      ({ s with rooms := setA s.rooms roomCode room2 }, ev.1)

/-- `playerRespawn` handler: health back to 100, death flag cleared,
respawn relayed to the other room members. -/
def handlePlayerRespawn (s : ServerState)
    (socketId roomCode playerId : String) : ServerState × List Emit :=
  match lookupA s.rooms roomCode with
  | none => (s, [])
  | some room =>
    match lookupA room.players playerId with
    | none => (s, [])
    | some p =>
      let p2 : Player := { p with health := 100, isDead := false }
      let room2 : Room :=
        { room with players := setA room.players playerId p2 }
      ({ s with rooms := setA s.rooms roomCode room2 },
       [(EmitTarget.othersInRoom roomCode socketId,
         Payload.playerRespawnEvt playerId)])

/-- `disconnect` handler: delete the player from its room, notify the
others (reading the display name only after the deletion, as the JS code
does), garbage-collect an empty room, drop the connection binding. -/
def handleDisconnect (s : ServerState) (socketId : String) :
    ServerState × List Emit :=
  match lookupA s.players socketId with
  | none => (s, [])
  | some b =>
    match lookupA s.rooms b.roomCode with
    | none => ({ s with players := delA s.players socketId }, [])
    | some room =>
      let ps2 := delA room.players b.playerId
      let nm : String :=
        match lookupA ps2 b.playerId with
        | some q => if q.name = "" then "Player" else q.name
        | none => "Player"
      let e : Emit :=
        (EmitTarget.othersInRoom b.roomCode socketId,
         Payload.playerDisconnectedEvt b.playerId nm)
      if sizeA ps2 = 0 then
        ({ rooms := delA s.rooms b.roomCode,
           players := delA s.players socketId }, [e])
      else
        ({ rooms := setA s.rooms b.roomCode { room with players := ps2 },
           players := delA s.players socketId }, [e])

/-- Observable: a player's record after locating room and player. -/
def playerAfter (s : ServerState) (roomCode playerId : String) :
    Option Player :=
  match lookupA s.rooms roomCode with
  | none => none
  | some room => lookupA room.players playerId

/-- Observable: whether a player's sword is active. -/
def swordIsActive (p : Player) : Bool :=
  match p.sword with
  | some sw => sw.active
  | none => false

/-- Observable: whether a player's shield is active. -/
def shieldIsActive (p : Player) : Bool :=
  match p.shield with
  | some sh => sh.active
  | none => false

/-- Whether an emitted event is a `gameOver`. -/
def isGameOverEmit (e : Emit) : Bool :=
  match e.2 with
  | Payload.gameOverEvt _ _ => true
  | _ => false

/-! ### Association-list lemmas -/

theorem lookupA_mem {α : Type} {m : List (String × α)} {k : String} {v : α}
    (h : lookupA m k = some v) : (k, v) ∈ m := by
  induction m with
  | nil => simp [lookupA] at h
  | cons hd t ih =>
    obtain ⟨k2, w⟩ := hd
    by_cases hk : k2 = k
    · subst hk
      simp [lookupA] at h
      simp [h]
    · simp [lookupA, hk] at h
      exact List.mem_cons_of_mem _ (ih h)

theorem mem_setA {α : Type} {m : List (String × α)} {k : String} {v : α}
    {kv : String × α} (h : kv ∈ setA m k v) : kv ∈ m ∨ kv = (k, v) := by
  induction m with
  | nil => simp [setA] at h; simp [h]
  | cons hd t ih =>
    obtain ⟨k2, w⟩ := hd
    by_cases hk : k2 = k
    · subst hk
      simp [setA] at h
      rcases h with h | h
      · right; simp [h]
      · left; exact List.mem_cons_of_mem _ h
    · simp [setA, hk] at h
      rcases h with h | h
      · left; simp [h]
      · rcases ih h with h2 | h2
        · left; exact List.mem_cons_of_mem _ h2
        · right; exact h2

theorem mem_delA {α : Type} {m : List (String × α)} {k : String}
    {kv : String × α} (h : kv ∈ delA m k) : kv ∈ m := by
  induction m with
  | nil => simp [delA] at h
  | cons hd t ih =>
    obtain ⟨k2, w⟩ := hd
    by_cases hk : k2 = k
    · simp [delA, hk] at h
      exact List.mem_cons_of_mem _ h
    · simp [delA, hk] at h
      rcases h with h | h
      · simp [h]
      · exact List.mem_cons_of_mem _ (ih h)

theorem sizeA_setA_le {α : Type} (m : List (String × α)) (k : String) (v : α) :
    sizeA (setA m k v) ≤ sizeA m + 1 := by
  induction m with
  | nil => simp [setA, sizeA]
  | cons hd t ih =>
    obtain ⟨k2, w⟩ := hd
    by_cases hk : k2 = k
    · simp [setA, hk, sizeA]
    · simp only [setA, hk, if_false, sizeA, List.length_cons]
      simp only [sizeA] at ih
      omega

theorem sizeA_delA_le {α : Type} (m : List (String × α)) (k : String) :
    sizeA (delA m k) ≤ sizeA m := by
  induction m with
  | nil => simp [delA, sizeA]
  | cons hd t ih =>
    obtain ⟨k2, w⟩ := hd
    by_cases hk : k2 = k
    · simp [delA, hk, sizeA]
    · simp only [delA, hk, if_false, sizeA, List.length_cons]
      simp only [sizeA] at ih
      omega

theorem sizeA_setA_of_has {α : Type} {m : List (String × α)} {k : String}
    (h : hasA m k = true) (v : α) : sizeA m = sizeA (setA m k v) := by
  induction m with
  | nil => simp [hasA, lookupA] at h
  | cons hd t ih =>
    obtain ⟨k2, w⟩ := hd
    by_cases hk : k2 = k
    · simp [setA, hk, sizeA]
    · simp only [hasA, lookupA, hk, if_false] at h
      simp only [setA, hk, if_false, sizeA, List.length_cons]
      exact congrArg (· + 1) (ih h)

theorem lookupA_setA_self {α : Type} (m : List (String × α)) (k : String)
    (v : α) : lookupA (setA m k v) k = some v := by
  induction m with
  | nil => simp [setA, lookupA]
  | cons hd t ih =>
    obtain ⟨k2, w⟩ := hd
    by_cases hk : k2 = k
    · simp [setA, hk, lookupA]
    · simp [setA, hk, lookupA, ih]

/-! ### Countdown lemmas -/

theorem spawnAux_length (i : Nat) (ps : List (String × Player)) :
    (spawnAux i ps).length = ps.length := by
  induction ps generalizing i with
  | nil => rfl
  | cons hd t ih => simp [spawnAux, ih]

theorem mem_spawnAux {i : Nat} {ps : List (String × Player)}
    {kv : String × Player} (h : kv ∈ spawnAux i ps) :
    ∃ kv' ∈ ps, kv.2.health = kv'.2.health := by
  induction ps generalizing i with
  | nil => simp [spawnAux] at h
  | cons hd t ih =>
    obtain ⟨k, p⟩ := hd
    simp only [spawnAux, List.mem_cons] at h
    rcases h with h | h
    · exact ⟨(k, p), List.mem_cons_self _ _, by simp [h]⟩
    · obtain ⟨kv', h1, h2⟩ := ih h
      exact ⟨kv', List.mem_cons_of_mem _ h1, h2⟩

theorem runCountdown_fst (room : Room) (n : Nat) :
    (runCountdown room n).1 = { room with players := spawnAux 0 room.players } := by
  induction n with
  | zero => rfl
  | succ n ih => simpa [runCountdown] using ih

theorem runCountdown_clears (room : Room) (n : Nat) :
    (runCountdown room n).2.2 = 1 := by
  induction n with
  | zero => rfl
  | succ n ih => simpa [runCountdown] using ih

/-! ### Living-player count lemmas -/

theorem aliveValues_cons (k : String) (p : Player)
    (t : List (String × Player)) :
    aliveValues ((k, p) :: t) =
      if p.isDead then aliveValues t else p :: aliveValues t := by
  cases hp : p.isDead <;> simp [aliveValues, List.filter_cons, hp]

theorem countAlive_pos_of_alive {ps : List (String × Player)} {k : String}
    {t : Player} (hl : lookupA ps k = some t) (ht : t.isDead = false) :
    1 ≤ countAlive ps := by
  induction ps with
  | nil => simp [lookupA] at hl
  | cons hd tl ih =>
    obtain ⟨k2, w⟩ := hd
    by_cases hk : k2 = k
    · simp [lookupA, hk] at hl
      subst hl
      simp [countAlive, aliveValues_cons, ht]
    · simp only [lookupA, hk, if_false] at hl
      have h1 := ih hl
      simp only [countAlive] at h1 ⊢
      cases hw : w.isDead
      · rw [aliveValues_cons, hw, if_neg (by decide)]
        simp only [List.length_cons]
        omega
      · rw [aliveValues_cons, hw, if_pos rfl]
        exact h1

theorem countAlive_setA_kill {ps : List (String × Player)} {k : String}
    {t v : Player} (hl : lookupA ps k = some t) (ht : t.isDead = false)
    (hv : v.isDead = true) :
    countAlive (setA ps k v) + 1 = countAlive ps := by
  induction ps with
  | nil => simp [lookupA] at hl
  | cons hd tl ih =>
    obtain ⟨k2, w⟩ := hd
    by_cases hk : k2 = k
    · simp [lookupA, hk] at hl
      subst hl
      simp [setA, hk, countAlive, aliveValues_cons, ht, hv]
    · simp only [lookupA, hk, if_false] at hl
      have h1 := ih hl
      simp only [countAlive] at h1 ⊢
      have hs : setA ((k2, w) :: tl) k v = (k2, w) :: setA tl k v := by
        simp [setA, hk]
      rw [hs]
      cases hw : w.isDead
      · rw [aliveValues_cons, aliveValues_cons, hw,
          if_neg (by decide), if_neg (by decide)]
        simp only [List.length_cons]
        omega
      · rw [aliveValues_cons, aliveValues_cons, hw, if_pos rfl, if_pos rfl]
        exact h1

/-! ### Invariants -/

/-- Every player stored in the given player map has health in [0,100]. -/
def playersHealthOK (ps : List (String × Player)) : Prop :=
  ∀ kv ∈ ps, 0 ≤ kv.2.health ∧ kv.2.health ≤ 100

/-- Every player of every registered room has health in [0,100]. -/
def roomsHealthOK (rs : List (String × Room)) : Prop :=
  ∀ kv ∈ rs, playersHealthOK kv.2.players

/-- Every registered room holds at most two players. -/
def roomsLe2 (rs : List (String × Room)) : Prop :=
  ∀ kv ∈ rs, sizeA kv.2.players ≤ 2

instance (ps : List (String × Player)) : Decidable (playersHealthOK ps) := by
  unfold playersHealthOK
  infer_instance

instance (rs : List (String × Room)) : Decidable (roomsHealthOK rs) := by
  unfold roomsHealthOK
  infer_instance

instance (rs : List (String × Room)) : Decidable (roomsLe2 rs) := by
  unfold roomsLe2
  infer_instance

theorem roomsLe2_setA {rs : List (String × Room)} {code : String}
    {room : Room} (h : roomsLe2 rs) (h2 : sizeA room.players ≤ 2) :
    roomsLe2 (setA rs code room) := by
  intro kv hkv
  rcases mem_setA hkv with hm | he
  · exact h kv hm
  · rw [he]
    exact h2

theorem roomsLe2_delA {rs : List (String × Room)} {code : String}
    (h : roomsLe2 rs) : roomsLe2 (delA rs code) :=
  fun kv hkv => h kv (mem_delA hkv)

theorem roomsLe2_lookup {rs : List (String × Room)} {code : String}
    {room : Room} (h : roomsLe2 rs) (hr : lookupA rs code = some room) :
    sizeA room.players ≤ 2 :=
  h (code, room) (lookupA_mem hr)

theorem playersHealthOK_setA {ps : List (String × Player)} {k : String}
    {p : Player} (h : playersHealthOK ps)
    (hp : 0 ≤ p.health ∧ p.health ≤ 100) :
    playersHealthOK (setA ps k p) := by
  intro kv hkv
  rcases mem_setA hkv with hm | he
  · exact h kv hm
  · rw [he]
    exact hp

theorem playersHealthOK_delA {ps : List (String × Player)} {k : String}
    (h : playersHealthOK ps) : playersHealthOK (delA ps k) :=
  fun kv hkv => h kv (mem_delA hkv)

theorem playersHealthOK_spawnAux {ps : List (String × Player)}
    (h : playersHealthOK ps) (i : Nat) : playersHealthOK (spawnAux i ps) := by
  intro kv hkv
  obtain ⟨kv', h1, h2⟩ := mem_spawnAux hkv
  rw [h2]
  exact h kv' h1

theorem playersHealthOK_lookup {ps : List (String × Player)} {k : String}
    {p : Player} (h : playersHealthOK ps) (hl : lookupA ps k = some p) :
    0 ≤ p.health ∧ p.health ≤ 100 :=
  h (k, p) (lookupA_mem hl)

theorem roomsHealthOK_setA {rs : List (String × Room)} {code : String}
    {room : Room} (h : roomsHealthOK rs)
    (h2 : playersHealthOK room.players) :
    roomsHealthOK (setA rs code room) := by
  intro kv hkv
  rcases mem_setA hkv with hm | he
  · exact h kv hm
  · rw [he]
    exact h2

theorem roomsHealthOK_delA {rs : List (String × Room)} {code : String}
    (h : roomsHealthOK rs) : roomsHealthOK (delA rs code) :=
  fun kv hkv => h kv (mem_delA hkv)

theorem roomsHealthOK_lookup {rs : List (String × Room)} {code : String}
    {room : Room} (h : roomsHealthOK rs)
    (hr : lookupA rs code = some room) : playersHealthOK room.players :=
  h (code, room) (lookupA_mem hr)

theorem mkPlayer_healthOK (a b c : String) :
    0 ≤ (mkPlayer a b c).health ∧ (mkPlayer a b c).health ≤ 100 := by
  simp [mkPlayer]

/-! ### Preservation of the two-player bound -/

theorem roomsLe2_createRoom (s : ServerState) (a b c d : String)
    (h : roomsLe2 s.rooms) :
    roomsLe2 (handleCreateRoom s a b c d).1.rooms := by
  unfold handleCreateRoom
  exact roomsLe2_setA h (by simp [setA, sizeA])

theorem roomsLe2_joinRoom (s : ServerState) (a b c d : String)
    (h : roomsLe2 s.rooms) : roomsLe2 (joinRoom s a b c d).1.rooms := by
  unfold joinRoom
  split
  · exact h
  · next room heq =>
    split
    · exact h
    · next hsz =>
      refine roomsLe2_setA h ?_
      show sizeA (setA room.players d (mkPlayer d b a)) ≤ 2
      have h1 := sizeA_setA_le room.players d (mkPlayer d b a)
      omega

theorem roomsLe2_joinRandomRoom (s : ServerState) (a b c d : String)
    (h : roomsLe2 s.rooms) :
    roomsLe2 (handleJoinRandomRoom s a b c d).1.rooms := by
  unfold handleJoinRandomRoom
  split
  · exact roomsLe2_joinRoom s a b _ d h
  · exact roomsLe2_setA h (by simp [setA, sizeA])

theorem roomsLe2_disconnect (s : ServerState) (sock : String)
    (h : roomsLe2 s.rooms) :
    roomsLe2 (handleDisconnect s sock).1.rooms := by
  unfold handleDisconnect
  split
  · exact h
  · next b heq =>
    split
    · exact h
    · next room heq2 =>
      dsimp only
      split
      · exact roomsLe2_delA h
      · refine roomsLe2_setA h ?_
        show sizeA (delA room.players b.playerId) ≤ 2
        have h1 := sizeA_delA_le room.players b.playerId
        have h2 := roomsLe2_lookup h heq2
        omega

theorem sizeA_joinGamePlayers_le (room : Room) (pid nm sock : String)
    (hb : sizeA room.players ≤ 2)
    (hc : hasA room.players pid = true ∨ sizeA room.players < 2) :
    sizeA (joinGamePlayers room pid nm sock) ≤ 2 := by
  unfold joinGamePlayers
  rcases hc with hh | hh
  · rw [if_pos hh]
    exact hb
  · split
    · exact hb
    · have h1 := sizeA_setA_le room.players pid (mkPlayer pid nm sock)
      omega

theorem roomsLe2_joinGame (s : ServerState) (sock rc pid nm : String)
    (h : roomsLe2 s.rooms)
    (hc : ∀ room, lookupA s.rooms rc = some room →
      hasA room.players pid = true ∨ sizeA room.players < 2) :
    roomsLe2 (handleJoinGame s sock rc pid nm).1.rooms := by
  unfold handleJoinGame
  split
  · exact h
  · next room heq =>
    have hroom2 := sizeA_joinGamePlayers_le room pid nm sock
      (roomsLe2_lookup h heq) (hc room heq)
    dsimp only
    split
    · refine roomsLe2_setA (roomsLe2_setA h hroom2) ?_
      show sizeA (startGame
        { room with players := joinGamePlayers room pid nm sock }).1.players ≤ 2
      unfold startGame
      rw [runCountdown_fst]
      show sizeA (spawnAux 0 (joinGamePlayers room pid nm sock)) ≤ 2
      simp only [sizeA] at hroom2 ⊢
      rw [spawnAux_length]
      exact hroom2
    · exact roomsLe2_setA h hroom2

/-! ### Preservation of the health bound -/

theorem hok_createRoom (s : ServerState) (a b c d : String)
    (h : roomsHealthOK s.rooms) :
    roomsHealthOK (handleCreateRoom s a b c d).1.rooms := by
  unfold handleCreateRoom
  refine roomsHealthOK_setA h ?_
  intro kv hkv
  simp [setA] at hkv
  simp [hkv, mkPlayer]

theorem hok_joinRoom (s : ServerState) (a b c d : String)
    (h : roomsHealthOK s.rooms) :
    roomsHealthOK (joinRoom s a b c d).1.rooms := by
  unfold joinRoom
  split
  · exact h
  · next room heq =>
    split
    · exact h
    · refine roomsHealthOK_setA h ?_
      show playersHealthOK (setA room.players d (mkPlayer d b a))
      exact playersHealthOK_setA (roomsHealthOK_lookup h heq)
        (mkPlayer_healthOK d b a)

theorem hok_joinRandomRoom (s : ServerState) (a b c d : String)
    (h : roomsHealthOK s.rooms) :
    roomsHealthOK (handleJoinRandomRoom s a b c d).1.rooms := by
  unfold handleJoinRandomRoom
  split
  · exact hok_joinRoom s a b _ d h
  · refine roomsHealthOK_setA h ?_
    intro kv hkv
    simp [setA] at hkv
    simp [hkv, mkPlayer]

theorem hok_joinGamePlayers (room : Room) (pid nm sock : String)
    (h : playersHealthOK room.players) :
    playersHealthOK (joinGamePlayers room pid nm sock) := by
  unfold joinGamePlayers
  split
  · exact h
  · exact playersHealthOK_setA h (mkPlayer_healthOK pid nm sock)

theorem hok_joinGame (s : ServerState) (sock rc pid nm : String)
    (h : roomsHealthOK s.rooms) :
    roomsHealthOK (handleJoinGame s sock rc pid nm).1.rooms := by
  unfold handleJoinGame
  split
  · exact h
  · next room heq =>
    have hps := hok_joinGamePlayers room pid nm sock
      (roomsHealthOK_lookup h heq)
    dsimp only
    split
    · refine roomsHealthOK_setA (roomsHealthOK_setA h hps) ?_
      show playersHealthOK (startGame
        { room with players := joinGamePlayers room pid nm sock }).1.players
      unfold startGame
      rw [runCountdown_fst]
      exact playersHealthOK_spawnAux hps 0
    · exact roomsHealthOK_setA h hps

theorem hok_swordSwing (s : ServerState) (a b c : String)
    (hb : Option Hitbox) (h : roomsHealthOK s.rooms) :
    roomsHealthOK (handleSwordSwing s a b c hb).1.rooms := by
  unfold handleSwordSwing
  split
  · exact h
  · next room heq =>
    split
    · exact h
    · next p heq2 =>
      refine roomsHealthOK_setA h ?_
      refine playersHealthOK_setA (roomsHealthOK_lookup h heq) ?_
      have hh := playersHealthOK_lookup (roomsHealthOK_lookup h heq) heq2
      exact hh

theorem hok_swordRelease (s : ServerState) (a b c : String)
    (h : roomsHealthOK s.rooms) :
    roomsHealthOK (handleSwordRelease s a b c).1.rooms := by
  unfold handleSwordRelease
  split
  · exact h
  · next room heq =>
    split
    · exact h
    · next p heq2 =>
      refine roomsHealthOK_setA h ?_
      refine playersHealthOK_setA (roomsHealthOK_lookup h heq) ?_
      have hh := playersHealthOK_lookup (roomsHealthOK_lookup h heq) heq2
      exact hh

theorem hok_playerHit (s : ServerState) (rc tid aid : String)
    (h : roomsHealthOK s.rooms) :
    roomsHealthOK (handlePlayerHit s rc tid aid).1.rooms := by
  unfold handlePlayerHit
  split
  · exact h
  · next room heq =>
    split
    · next target atk heq2 heq3 =>
      dsimp only
      split
      · exact h
      · have hpl := roomsHealthOK_lookup h heq
        have htb := playersHealthOK_lookup hpl heq2
        have hb2 : 0 ≤ max 0 (target.health - 15) ∧
            max 0 (target.health - 15) ≤ 100 := by
          constructor
          · exact le_max_left 0 _
          · exact max_le (by norm_num) (by omega)
        refine roomsHealthOK_setA h ?_
        split
        · exact playersHealthOK_setA hpl hb2
        · exact playersHealthOK_setA hpl hb2
    · exact h

theorem hok_playerDied (s : ServerState) (rc pid : String)
    (h : roomsHealthOK s.rooms) :
    roomsHealthOK (handlePlayerDied s rc pid).1.rooms := by
  unfold handlePlayerDied
  split
  · exact h
  · next room heq =>
    split
    · exact h
    · next p heq2 =>
      have hpl := roomsHealthOK_lookup h heq
      refine roomsHealthOK_setA h ?_
      refine playersHealthOK_setA hpl ?_
      have hh := playersHealthOK_lookup hpl heq2
      exact hh

theorem hok_playerRespawn (s : ServerState) (a b c : String)
    (h : roomsHealthOK s.rooms) :
    roomsHealthOK (handlePlayerRespawn s a b c).1.rooms := by
  unfold handlePlayerRespawn
  split
  · exact h
  · next room heq =>
    split
    · exact h
    · next p heq2 =>
      refine roomsHealthOK_setA h ?_
      refine playersHealthOK_setA (roomsHealthOK_lookup h heq) ?_
      norm_num

theorem hok_disconnect (s : ServerState) (sock : String)
    (h : roomsHealthOK s.rooms) :
    roomsHealthOK (handleDisconnect s sock).1.rooms := by
  unfold handleDisconnect
  split
  · exact h
  · next b heq =>
    split
    · exact h
    · next room heq2 =>
      dsimp only
      split
      · exact roomsHealthOK_delA h
      · refine roomsHealthOK_setA h ?_
        exact playersHealthOK_delA (roomsHealthOK_lookup h heq2)

/-! ### Concrete states used by counterexamples and witnesses -/

/-- Player "Alice" at full health, bound to socket `s1`. -/
def alice : Player := mkPlayer "p1" "Alice" "s1"

/-- Player "Bob" at health 10, bound to socket `s2`. -/
def bobLow : Player := { mkPlayer "p2" "Bob" "s2" with health := 10 }

/-- A started room holding Alice and Bob. -/
def room2p : Room :=
  { code := "AB", players := [("p1", alice), ("p2", bobLow)],
    gameStarted := true, countdown := 3 }

/-- Registry state with the room `AB` and both connection bindings. -/
def state2p : ServerState :=
  { rooms := [("AB", room2p)],
    players := [("s1", { playerId := "p1", roomCode := "AB" }),
                ("s2", { playerId := "p2", roomCode := "AB" })] }

/-- Bob after dying. -/
def bobDead : Player := { bobLow with health := 0, isDead := true }

/-- The room after a game over: exactly one living player. -/
def roomPost : Room :=
  { code := "AB", players := [("p1", alice), ("p2", bobDead)],
    gameStarted := false, countdown := 3 }

/-- Registry state for the post-game-over room. -/
def statePost : ServerState :=
  { rooms := [("AB", roomPost)],
    players := [("s1", { playerId := "p1", roomCode := "AB" }),
                ("s2", { playerId := "p2", roomCode := "AB" })] }

/-- A `playerState` report carrying an out-of-range health value. -/
def badMsg : PlayerStateMsg :=
  { roomCode := "AB", playerId := "p1", x := 1, y := 2,
    velocityX := none, velocityY := none, health := 150, isDead := false,
    shield := none }

/-- A not-yet-started room holding Alice and Bob. -/
def roomC6 : Room :=
  { code := "AB", players := [("p1", alice), ("p2", bobLow)],
    gameStarted := false, countdown := 3 }

/-- The empty registry state. -/
def emptyState : ServerState := { rooms := [], players := [] }

/-! ### Claim theorems -/

/-- C1, counterexample: the claim "every room's player map holds at most
2 entries after any completed handler" is false as stated — `joinGame`
performs no capacity check, so sending it with a fresh player id against
the full room `AB` leaves that room with 3 players. -/
theorem C1_counterexample :
    (lookupA (handleJoinGame state2p "s3" "AB" "p3" "Carol").1.rooms
      "AB").map (fun r => sizeA r.players) = some 3 := by
  rfl

/-- C1, amended: after `createRoom`, `joinRoom`, `joinRandomRoom` and
`disconnect` every room still holds at most 2 players; `joinGame`
preserves the bound provided the supplied player id is already present in
the target room or that room has fewer than 2 players. -/
theorem C1_amended_bound (s : ServerState) (h : roomsLe2 s.rooms)
    (sock nm code pid : String) :
    roomsLe2 (handleCreateRoom s sock nm code pid).1.rooms ∧
    roomsLe2 (joinRoom s sock nm code pid).1.rooms ∧
    roomsLe2 (handleJoinRandomRoom s sock nm code pid).1.rooms ∧
    roomsLe2 (handleDisconnect s sock).1.rooms ∧
    ((∀ room, lookupA s.rooms code = some room →
        hasA room.players pid = true ∨ sizeA room.players < 2) →
      roomsLe2 (handleJoinGame s sock code pid nm).1.rooms) :=
  ⟨roomsLe2_createRoom s sock nm code pid h,
   roomsLe2_joinRoom s sock nm code pid h,
   roomsLe2_joinRandomRoom s sock nm code pid h,
   roomsLe2_disconnect s sock h,
   fun hc => roomsLe2_joinGame s sock code pid nm h hc⟩

/-- Witness for C1's amended theorem at a concrete state. -/
theorem C1_amended_bound_witness :
    roomsLe2 state2p.rooms ∧
    roomsLe2 (handleJoinGame state2p "s1" "AB" "p1" "Alice").1.rooms :=
  ⟨by decide,
   (C1_amended_bound state2p (by decide) "s1" "Alice" "AB" "p1").2.2.2.2
     (fun room hr => by
       have h3 : lookupA state2p.rooms "AB" = some room2p := rfl
       rw [h3] at hr
       rw [← Option.some.inj hr]
       left
       decide)⟩

/-- C2, counterexample: the claim "no operation other than applyHit can
leave health outside [0,100]" is false — the `playerState` handler
overwrites health with the client-reported value, here 150. -/
theorem C2_counterexample :
    (playerAfter (handlePlayerState state2p "s1" badMsg).1 "AB" "p1").map
      Player.health = some 150 ∧ ¬((150 : Int) ≤ 100) := by
  exact ⟨rfl, by decide⟩

/-- C3, counterexample: the claim "after a gameOver no subsequent
playerHit or playerDied emits a second gameOver" is false — after the hit
that kills Bob emits `gameOver`, a `playerDied` message naming the
already-dead Bob emits `gameOver` again. -/
theorem C3_counterexample :
    (handlePlayerHit state2p "AB" "p2" "p1").2 =
      [(EmitTarget.toRoom "AB", Payload.gameOverEvt "p1" "p2"),
       (EmitTarget.toRoom "AB", Payload.playerHitEvt "p2" "p1" 15)] ∧
    (handlePlayerDied (handlePlayerHit state2p "AB" "p2" "p1").1
      "AB" "p2").2 =
      [(EmitTarget.toRoom "AB", Payload.gameOverEvt "p1" "p2")] := by
  exact ⟨rfl, rfl⟩

/-- C4: evaluating the `disconnect` handler at the failing input.  All of
the claim holds except the notified name: Bob (stored name "Bob")
disconnects, the room keeps Alice and stays registered, the binding is
dropped, and disconnecting the last player deletes the room — but the
`playerDisconnected` event carries the constant `"Player"`, because the
code reads the name from the player map only after deleting the entry. -/
theorem C4_disconnect_behavior :
    (handleDisconnect state2p "s2").2 =
      [(EmitTarget.othersInRoom "AB" "s2",
        Payload.playerDisconnectedEvt "p2" "Player")] ∧
    bobLow.name = "Bob" ∧ ("Player" : String) ≠ "Bob" ∧
    (handleDisconnect state2p "s2").1.rooms =
      [("AB", { room2p with players := [("p1", alice)] })] ∧
    (handleDisconnect state2p "s2").1.players =
      [("s1", { playerId := "p1", roomCode := "AB" })] ∧
    (handleDisconnect (handleDisconnect state2p "s2").1 "s1").1.rooms = [] ∧
    (handleDisconnect (handleDisconnect state2p "s2").1 "s1").1.players
      = [] := by
  exact ⟨rfl, rfl, by decide, rfl, rfl, rfl, rfl⟩

/-- C7, counterexample: the claim "joinGame with an unknown room is
silently ignored, no event emitted" is false — it emits an `error` event
to the requesting connection (while changing no state). -/
theorem C7_counterexample :
    handleJoinGame emptyState "s0" "XXXX" "p0" "Nia" =
      (emptyState,
       [(EmitTarget.toSocket "s0", Payload.errorMsg "Room not found")]) ∧
    [(EmitTarget.toSocket "s0", Payload.errorMsg "Room not found")] ≠
      ([] : List Emit) := by
  exact ⟨rfl, by decide⟩

/-- The clamping behaviour of the hit path: a living target at health 10
hit (with both players present) ends at health exactly 0 with the death
flag set — never negative. -/
theorem playerHit_clamp (s : ServerState) (rc tid aid : String)
    (room : Room) (t a : Player) (hr : lookupA s.rooms rc = some room)
    (ht : lookupA room.players tid = some t)
    (ha : lookupA room.players aid = some a)
    (hd : t.isDead = false) (hh : t.health = 10) :
    (playerAfter (handlePlayerHit s rc tid aid).1 rc tid).map
      (fun q => (q.health, q.isDead)) = some (0, true) := by
  simp only [handlePlayerHit, hr, ht, ha, hd]
  simp only [Bool.false_eq_true, if_false]
  rw [hh]
  rw [if_pos (by norm_num : (0:Int) ⊔ (10 - 15) ≤ 0 ∧ True)]
  simp only [playerAfter, lookupA_setA_self]
  norm_num

/-- C2, amended: every handler except `playerState` preserves the
invariant that all stored healths lie in [0,100] (the `playerState`
handler writes the client-reported value unvalidated, see the
counterexample), and the hit path clamps at 0: a living target at health
10 ends at health exactly 0 with the death flag true. -/
theorem C2_amended_health (s : ServerState) (h : roomsHealthOK s.rooms)
    (sock nm rc pid tid aid : String) (hb : Option Hitbox) :
    roomsHealthOK (handleCreateRoom s sock nm rc pid).1.rooms ∧
    roomsHealthOK (joinRoom s sock nm rc pid).1.rooms ∧
    roomsHealthOK (handleJoinRandomRoom s sock nm rc pid).1.rooms ∧
    roomsHealthOK (handleJoinGame s sock rc pid nm).1.rooms ∧
    roomsHealthOK (handleSwordSwing s sock rc pid hb).1.rooms ∧
    roomsHealthOK (handleSwordRelease s sock rc pid).1.rooms ∧
    roomsHealthOK (handlePlayerHit s rc tid aid).1.rooms ∧
    roomsHealthOK (handlePlayerDied s rc pid).1.rooms ∧
    roomsHealthOK (handlePlayerRespawn s sock rc pid).1.rooms ∧
    roomsHealthOK (handleDisconnect s sock).1.rooms ∧
    (∀ room t a, lookupA s.rooms rc = some room →
      lookupA room.players tid = some t →
      lookupA room.players aid = some a →
      t.isDead = false → t.health = 10 →
      (playerAfter (handlePlayerHit s rc tid aid).1 rc tid).map
        (fun q => (q.health, q.isDead)) = some (0, true)) :=
  ⟨hok_createRoom s sock nm rc pid h,
   hok_joinRoom s sock nm rc pid h,
   hok_joinRandomRoom s sock nm rc pid h,
   hok_joinGame s sock rc pid nm h,
   hok_swordSwing s sock rc pid hb h,
   hok_swordRelease s sock rc pid h,
   hok_playerHit s rc tid aid h,
   hok_playerDied s rc pid h,
   hok_playerRespawn s sock rc pid h,
   hok_disconnect s sock h,
   fun room t a hr ht ha hd hh =>
     playerHit_clamp s rc tid aid room t a hr ht ha hd hh⟩

/-- Witness for C2's amended theorem at a concrete state: the hypothesis
holds of `state2p` and the hit on Bob (health 10) yields (0, true). -/
theorem C2_amended_health_witness :
    roomsHealthOK state2p.rooms ∧
    (playerAfter (handlePlayerHit state2p "AB" "p2" "p1").1 "AB"
      "p2").map (fun q => (q.health, q.isDead)) = some (0, true) :=
  ⟨by decide,
   (C2_amended_health state2p (by decide) "s1" "Nia" "AB" "p1" "p2" "p1"
       none).2.2.2.2.2.2.2.2.2.2
     room2p bobLow alice rfl rfl rfl rfl rfl⟩

/-- C3, amended: once a room has reached the game-over condition (at most
one living player), a subsequent `playerHit` message never emits another
`gameOver` — killing the last living player leaves zero living players,
and hits on dead players are ignored.  (A `playerDied` message naming an
already-dead player does re-emit `gameOver`, see the counterexample.) -/
theorem C3_amended_no_second_gameover (s : ServerState)
    (rc tid aid : String) (room : Room)
    (hr : lookupA s.rooms rc = some room)
    (h1 : countAlive room.players ≤ 1) :
    (handlePlayerHit s rc tid aid).2.all
      (fun e => !isGameOverEmit e) = true := by
  simp only [handlePlayerHit, hr]
  cases ht : lookupA room.players tid with
  | none => rfl
  | some t =>
    cases ha : lookupA room.players aid with
    | none => rfl
    | some a =>
      cases hd : t.isDead with
      | true => simp [hd]
      | false =>
        have halive := countAlive_pos_of_alive ht hd
        have hkill := countAlive_setA_kill (v :=
          { t with health := 0 ⊔ (t.health - 15), isDead := true })
          ht hd rfl
        have hnil : aliveValues (setA room.players tid
            { t with health := 0 ⊔ (t.health - 15), isDead := true })
            = [] := by
          have hzero : countAlive (setA room.players tid
              { t with health := 0 ⊔ (t.health - 15), isDead := true })
              = 0 := by omega
          simp only [countAlive] at hzero
          exact List.length_eq_zero.mp hzero
        simp only [hd, Bool.false_eq_true, if_false, eq_self_iff_true,
          and_true]
        dsimp only
        split
        · simp [survivorEval, hnil, isGameOverEmit]
        · simp [isGameOverEmit]

/-- Witness for C3's amended theorem at a concrete post-game-over state. -/
theorem C3_amended_witness :
    countAlive roomPost.players ≤ 1 ∧
    (handlePlayerHit statePost "AB" "p1" "p2").2.all
      (fun e => !isGameOverEmit e) = true :=
  ⟨by decide,
   C3_amended_no_second_gameover statePost "AB" "p1" "p2" roomPost rfl
     (by decide)⟩

/-- C5: `playerHit` is a no-op — state unchanged, no event of any kind
emitted — when the target or attacker id is absent from the room or the
target is already dead; otherwise a `playerHit` event with damage 15 is
emitted to the whole room even when no death results. -/
theorem C5_playerHit_guard (s : ServerState) (rc tid aid : String) :
    (∀ room, lookupA s.rooms rc = some room →
      (lookupA room.players tid = none ∨
        lookupA room.players aid = none) →
      handlePlayerHit s rc tid aid = (s, [])) ∧
    (∀ room t, lookupA s.rooms rc = some room →
      lookupA room.players tid = some t → t.isDead = true →
      handlePlayerHit s rc tid aid = (s, [])) ∧
    (∀ room t a, lookupA s.rooms rc = some room →
      lookupA room.players tid = some t →
      lookupA room.players aid = some a → t.isDead = false →
      (EmitTarget.toRoom rc, Payload.playerHitEvt tid aid 15) ∈
        (handlePlayerHit s rc tid aid).2) := by
  refine ⟨?_, ?_, ?_⟩
  · intro room hr hmiss
    rcases hmiss with hm | hm
    · simp [handlePlayerHit, hr, hm]
    · cases ht : lookupA room.players tid with
      | none => simp [handlePlayerHit, hr, ht]
      | some t => simp [handlePlayerHit, hr, ht, hm]
  · intro room t hr ht hd
    cases ha : lookupA room.players aid with
    | none => simp [handlePlayerHit, hr, ht, ha]
    | some a => simp [handlePlayerHit, hr, ht, ha, hd]
  · intro room t a hr ht ha hd
    simp only [handlePlayerHit, hr, ht, ha, hd, Bool.false_eq_true,
      if_false]
    dsimp only
    split <;> simp

/-- Witness for C5 at concrete states: a hit on the dead Bob is a
complete no-op, and a hit on the living Alice emits the damage-15 hit
event. -/
theorem C5_playerHit_guard_witness :
    handlePlayerHit statePost "AB" "p2" "p1" = (statePost, []) ∧
    (EmitTarget.toRoom "AB", Payload.playerHitEvt "p1" "p2" 15) ∈
      (handlePlayerHit statePost "AB" "p1" "p2").2 :=
  ⟨(C5_playerHit_guard statePost "AB" "p2" "p1").2.1 roomPost bobDead
     rfl rfl rfl,
   (C5_playerHit_guard statePost "AB" "p1" "p2").2.2 roomPost alice
     bobDead rfl rfl rfl rfl⟩

/-- C6: `startGame` on a two-player room sets `gameStarted`, emits the
countdown values 3, 2, 1, 0 in that order (one per tick), cancels the
repeating timer exactly once (third component = 1), places the first
player in enumeration order at (250,300) and the second at (750,300),
and finally broadcasts the full game-state snapshot; and `joinGame` on a
not-started two-player room triggers exactly this sequence after its own
membership broadcast. -/
theorem C6_startGame_sequence (room : Room) (k1 k2 : String)
    (p1 p2 : Player) (hps : room.players = [(k1, p1), (k2, p2)]) :
    startGame room =
      ({ code := room.code,
         players := [(k1, { p1 with x := 250, y := 300 }),
                     (k2, { p2 with x := 750, y := 300 })],
         gameStarted := true, countdown := room.countdown },
       ([(EmitTarget.toRoom room.code, Payload.countdownTick 3),
         (EmitTarget.toRoom room.code, Payload.countdownTick 2),
         (EmitTarget.toRoom room.code, Payload.countdownTick 1),
         (EmitTarget.toRoom room.code, Payload.countdownTick 0),
         (EmitTarget.toRoom room.code,
          gameStatePayload
            { code := room.code,
              players := [(k1, { p1 with x := 250, y := 300 }),
                          (k2, { p2 with x := 750, y := 300 })],
              gameStarted := true, countdown := room.countdown })],
        1)) ∧
    (∀ s sock nm, lookupA s.rooms room.code = some room →
      room.gameStarted = false →
      (handleJoinGame s sock room.code k1 nm).2 =
        (EmitTarget.toRoom room.code, gameStatePayload room) ::
          (startGame room).2.1) := by
  obtain ⟨c, ps, gs, cd⟩ := room
  simp only at hps
  subst hps
  constructor
  · rfl
  · intro s sock nm hr hgs
    simp only at hgs
    subst hgs
    have hjp : joinGamePlayers
        { code := c, players := [(k1, p1), (k2, p2)],
          gameStarted := false, countdown := cd } k1 nm sock =
        [(k1, p1), (k2, p2)] := by
      simp [joinGamePlayers, hasA, lookupA]
    simp only [handleJoinGame, hr, hjp]
    rw [if_pos (by exact ⟨rfl, trivial⟩)]

/-- Witness for C6 at the concrete room holding Alice and Bob. -/
theorem C6_startGame_sequence_witness :
    (startGame roomC6).2.2 = 1 ∧
    (startGame roomC6).1.gameStarted = true ∧
    (startGame roomC6).1.players =
      [("p1", { alice with x := 250, y := 300 }),
       ("p2", { bobLow with x := 750, y := 300 })] ∧
    (startGame roomC6).2.1.map (fun e => e.2) =
      [Payload.countdownTick 3, Payload.countdownTick 2,
       Payload.countdownTick 1, Payload.countdownTick 0,
       gameStatePayload (startGame roomC6).1] := by
  have h := (C6_startGame_sequence roomC6 "p1" "p2" alice bobLow rfl).1
  rw [h]
  exact ⟨rfl, rfl, rfl, rfl⟩

/-- C7, amended: `playerState`, `swordSwing`, `swordRelease`,
`playerHit`, `playerDied` and `playerRespawn` referencing an unknown
room or an unknown player id are silently ignored — state unchanged and
no event emitted; `joinGame` with an unknown room also changes no state
but, unlike the others, emits an `error` event to the requesting
connection. -/
theorem C7_amended_silent_ignore (s : ServerState)
    (sock rc pid tid aid nm : String) (msg : PlayerStateMsg)
    (hb : Option Hitbox) :
    (lookupA s.rooms msg.roomCode = none →
      handlePlayerState s sock msg = (s, [])) ∧
    (lookupA s.rooms rc = none →
      handleSwordSwing s sock rc pid hb = (s, []) ∧
      handleSwordRelease s sock rc pid = (s, []) ∧
      handlePlayerHit s rc tid aid = (s, []) ∧
      handlePlayerDied s rc pid = (s, []) ∧
      handlePlayerRespawn s sock rc pid = (s, []) ∧
      handleJoinGame s sock rc pid nm =
        (s, [(EmitTarget.toSocket sock,
              Payload.errorMsg "Room not found")])) ∧
    (∀ room, lookupA s.rooms msg.roomCode = some room →
      lookupA room.players msg.playerId = none →
      handlePlayerState s sock msg = (s, [])) ∧
    (∀ room, lookupA s.rooms rc = some room →
      lookupA room.players pid = none →
      handleSwordSwing s sock rc pid hb = (s, []) ∧
      handleSwordRelease s sock rc pid = (s, []) ∧
      handlePlayerDied s rc pid = (s, []) ∧
      handlePlayerRespawn s sock rc pid = (s, [])) ∧
    (∀ room, lookupA s.rooms rc = some room →
      lookupA room.players tid = none →
      handlePlayerHit s rc tid aid = (s, [])) := by
  refine ⟨?_, ?_, ?_, ?_, ?_⟩
  · intro h
    simp [handlePlayerState, h]
  · intro h
    exact ⟨by simp [handleSwordSwing, h], by simp [handleSwordRelease, h],
      by simp [handlePlayerHit, h], by simp [handlePlayerDied, h],
      by simp [handlePlayerRespawn, h], by simp [handleJoinGame, h]⟩
  · intro room hr hp
    simp [handlePlayerState, hr, hp]
  · intro room hr hp
    exact ⟨by simp [handleSwordSwing, hr, hp],
      by simp [handleSwordRelease, hr, hp],
      by simp [handlePlayerDied, hr, hp],
      by simp [handlePlayerRespawn, hr, hp]⟩
  · intro room hr hp
    simp [handlePlayerHit, hr, hp]

/-- Witness for C7's amended theorem: a `playerDied` naming an unknown
room is a complete no-op on the empty registry. -/
theorem C7_amended_silent_ignore_witness :
    handlePlayerDied emptyState "NOPE" "p" = (emptyState, []) :=
  ((C7_amended_silent_ignore emptyState "sk" "NOPE" "p" "t" "a" "n"
      badMsg none).2.1 rfl).2.2.1

/-- C8: `joinRoom` emits `roomNotFound` when the code is absent,
`roomFull` when the room already has 2 players (state unchanged in both
failure cases), and otherwise inserts a fresh player — position (0,0),
health 100, alive — under the fresh id and answers `roomJoined` with
that id. -/
theorem C8_joinRoom_spec (s : ServerState) (sock nm rc fresh : String) :
    (lookupA s.rooms rc = none →
      joinRoom s sock nm rc fresh =
        (s, [(EmitTarget.toSocket sock, Payload.roomNotFound)])) ∧
    (∀ room, lookupA s.rooms rc = some room →
      2 ≤ sizeA room.players →
      joinRoom s sock nm rc fresh =
        (s, [(EmitTarget.toSocket sock, Payload.roomFull)])) ∧
    (∀ room, lookupA s.rooms rc = some room →
      sizeA room.players < 2 →
      playerAfter (joinRoom s sock nm rc fresh).1 rc fresh =
          some (mkPlayer fresh nm sock) ∧
      (joinRoom s sock nm rc fresh).2 =
        [(EmitTarget.toSocket sock, Payload.roomJoined rc fresh)] ∧
      (mkPlayer fresh nm sock).x = 0 ∧ (mkPlayer fresh nm sock).y = 0 ∧
      (mkPlayer fresh nm sock).health = 100 ∧
      (mkPlayer fresh nm sock).isDead = false) := by
  refine ⟨?_, ?_, ?_⟩
  · intro h
    simp [joinRoom, h]
  · intro room hr h2
    simp [joinRoom, hr, h2]
  · intro room hr h2
    have hn : ¬ 2 ≤ sizeA room.players := by omega
    simp only [joinRoom, hr]
    rw [if_neg hn]
    dsimp only
    refine ⟨?_, rfl, rfl, rfl, rfl, rfl⟩
    simp [playerAfter, lookupA_setA_self]

/-- Witness for C8 at concrete states: unknown code, full room, and a
successful join into a one-player room. -/
theorem C8_joinRoom_spec_witness :
    joinRoom emptyState "s0" "Nia" "ZZ" "p9" =
      (emptyState, [(EmitTarget.toSocket "s0", Payload.roomNotFound)]) ∧
    joinRoom state2p "s3" "Carl" "AB" "p9" =
      (state2p, [(EmitTarget.toSocket "s3", Payload.roomFull)]) :=
  ⟨(C8_joinRoom_spec emptyState "s0" "Nia" "ZZ" "p9").1 rfl,
   (C8_joinRoom_spec state2p "s3" "Carl" "AB" "p9").2.1 room2p rfl
     (by decide)⟩

/-- C9: `playerRespawn` on a present player sets health to exactly 100
and clears the death flag whatever their previous values (hence it is
idempotent on that state), leaves the room's `gameStarted` unchanged,
and emits the respawn event to the other room members only (the sender's
socket is excluded). -/
theorem C9_respawn_spec (s : ServerState) (sock rc pid : String)
    (room : Room) (p : Player) (hr : lookupA s.rooms rc = some room)
    (hp : lookupA room.players pid = some p) :
    (∃ room2, lookupA (handlePlayerRespawn s sock rc pid).1.rooms rc =
        some room2 ∧
      room2.gameStarted = room.gameStarted ∧
      lookupA room2.players pid =
        some { p with health := 100, isDead := false }) ∧
    (handlePlayerRespawn s sock rc pid).2 =
      [(EmitTarget.othersInRoom rc sock,
        Payload.playerRespawnEvt pid)] := by
  simp only [handlePlayerRespawn, hr, hp]
  refine ⟨⟨_, lookupA_setA_self _ _ _, ?_, lookupA_setA_self _ _ _⟩, ?_⟩
  · trivial
  · trivial

/-- Witness for C9: respawning the dead Bob. -/
theorem C9_respawn_spec_witness :
    (∃ room2,
      lookupA (handlePlayerRespawn statePost "s2" "AB" "p2").1.rooms
        "AB" = some room2 ∧
      room2.gameStarted = roomPost.gameStarted ∧
      lookupA room2.players "p2" =
        some { bobDead with health := 100, isDead := false }) ∧
    (handlePlayerRespawn statePost "s2" "AB" "p2").2 =
      [(EmitTarget.othersInRoom "AB" "s2",
        Payload.playerRespawnEvt "p2")] :=
  C9_respawn_spec statePost "s2" "AB" "p2" roomPost bobDead rfl rfl

/-- C10: after `swordSwing` the player's sword is active and their
shield inactive; after `swordRelease` the sword is inactive and the
shield active — so after either message sword and shield are never both
active. -/
theorem C10_sword_shield (s : ServerState) (sock rc pid : String)
    (hb : Option Hitbox) (room : Room) (p : Player)
    (hr : lookupA s.rooms rc = some room)
    (hp : lookupA room.players pid = some p) :
    (∃ q, playerAfter (handleSwordSwing s sock rc pid hb).1 rc pid =
        some q ∧ swordIsActive q = true ∧ shieldIsActive q = false ∧
      ¬(swordIsActive q = true ∧ shieldIsActive q = true)) ∧
    (∃ q, playerAfter (handleSwordRelease s sock rc pid).1 rc pid =
        some q ∧ swordIsActive q = false ∧ shieldIsActive q = true ∧
      ¬(swordIsActive q = true ∧ shieldIsActive q = true)) := by
  constructor
  · refine ⟨{ p with
        sword := some { active := true, isSwinging := true,
                        swingAngle := some 0 },
        swordHitbox := hb,
        shield := some { active := false, angle := none } },
      ?_, rfl, rfl, by simp [swordIsActive, shieldIsActive]⟩
    simp [handleSwordSwing, hr, hp, playerAfter, lookupA_setA_self]
  · refine ⟨{ p with
        sword := some { active := false, isSwinging := false,
                        swingAngle := none },
        shield := some { active := true, angle := none } },
      ?_, rfl, rfl, by simp [swordIsActive, shieldIsActive]⟩
    simp [handleSwordRelease, hr, hp, playerAfter, lookupA_setA_self]

/-- Witness for C10: Alice swings and releases. -/
theorem C10_sword_shield_witness :
    (∃ q, playerAfter
        (handleSwordSwing state2p "s1" "AB" "p1" none).1 "AB" "p1" =
        some q ∧ swordIsActive q = true ∧ shieldIsActive q = false ∧
      ¬(swordIsActive q = true ∧ shieldIsActive q = true)) ∧
    (∃ q, playerAfter
        (handleSwordRelease state2p "s1" "AB" "p1").1 "AB" "p1" =
        some q ∧ swordIsActive q = false ∧ shieldIsActive q = true ∧
      ¬(swordIsActive q = true ∧ shieldIsActive q = true)) :=
  C10_sword_shield state2p "s1" "AB" "p1" none room2p alice rfl rfl

end Game
